import Mathlib

/-!
Shallow embedding of `src/office365_service/sharepoint_service.py`
(Dev4Mod/office365-service).

The heart of the repository is the decorator `handle_sharepoint_errors`, a
bounded retry loop that classifies each failure of the wrapped operation by
HTTP status code and decides whether to sleep and retry, re-authenticate, or
abort.  We model one invocation of a wrapped operation as a run of that loop
against an environment `env : Nat -> AttemptResult α` giving, for each attempt
index, either the successful result of the wrapped call or the exception it
raised (together with whether a re-login performed at that point would
succeed).  The run produces the final service state, the trace of observable
actions (operation attempts, sleeps, re-logins, device-token refreshes) and
the terminal outcome (a returned value, a raised exception, or the
`raise last_exception` statement executed while `last_exception` is `None`).

The other modelled functions are `login`, the integrity loop of
`baixar_arquivo`, the path-resolution functions `obter_pasta` and
`obter_arquivo`, and the name-matching used by `criar_pasta`,
`obter_pasta_por_nome` and `obter_arquivo_por_nome`.
-/

namespace Office365Service

/-- Python `str.lower()` (character-wise case fold, as used on exception
messages). -/
def lowerStr (s : String) : String := String.mk (s.toList.map Char.toLower)

/-- Boolean list-prefix test (first list is a leading segment of the second). -/
def isPrefB : List Char → List Char → Bool
  | [], _ => true
  | _ :: _, [] => false
  | a :: as, b :: bs => a == b && isPrefB as bs

/-- Boolean containment of `needle` as a contiguous segment of the second list. -/
def isInfB (needle : List Char) : List Char → Bool
  | [] => needle.isEmpty
  | c :: rest => isPrefB needle (c :: rest) || isInfB needle rest

/-- Python `needle in haystack` on strings: substring containment. -/
def substrB (needle haystack : String) : Bool :=
  isInfB needle.toList haystack.toList

/-- Characters of `os.path.basename`: everything after the last slash. -/
def basenameChars (l : List Char) : List Char :=
  (l.reverse.takeWhile (fun c => c != '/')).reverse

/-- Characters before (and including) the last slash, as in `posixpath.split`. -/
def headChars (l : List Char) : List Char :=
  (l.reverse.dropWhile (fun c => c != '/')).reverse

/-- Characters of `os.path.dirname`: the head with trailing slashes stripped
unless the head consists only of slashes. -/
def dirnameChars (l : List Char) : List Char :=
  let h := headChars l
  if h.all (fun c => c == '/') then h
  else (h.reverse.dropWhile (fun c => c == '/')).reverse

/-- `os.path.basename` for POSIX paths, as used by `obter_arquivo`. -/
def basename (p : String) : String := String.mk (basenameChars p.toList)

/-- `os.path.dirname` for POSIX paths, as used by `obter_arquivo`. -/
def dirname (p : String) : String := String.mk (dirnameChars p.toList)

/-- An exception raised by one attempt of a wrapped operation:
either a `ClientRequestException` carrying an HTTP status code, or any other
Python exception, carrying its message `str(e)`. -/
inductive Failure where
  | clientRequest (status : Nat)
  | unexpected (msg : String)
deriving DecidableEq, Repr

/-- The behaviour of one attempt of the wrapped function: it returns a result
or raises a failure.  `reloginOk` records whether the 3-attempt `login` call
performed at that moment (in the 401/403 branch) would succeed. -/
inductive AttemptResult (α : Type) where
  | ok (result : α)
  | fail (e : Failure) (reloginOk : Bool)
deriving DecidableEq, Repr

/-- Observable actions of a run, in order: invocations of the wrapped function
(`attempt i`), `time.sleep` calls, the `login` call of the 401/403 branch, the
`refresh_device_token` call, `os.remove` of a partial download, and the
individual authentication attempts inside `login`. -/
inductive Action where
  | attempt (i : Nat)
  | sleep (seconds : Nat)
  | relogin
  | deviceRefresh
  | deleteFile
  | authAttempt (i : Nat)
deriving DecidableEq, Repr

/-- Terminal outcome of the wrapped call: a returned value, a raised failure,
or the final `raise last_exception` executed with `last_exception is None`
(in Python this itself raises a `TypeError`, not the last observed failure). -/
inductive Outcome (α : Type) where
  | ok (a : α)
  | raised (e : Failure)
  | raiseNone
deriving DecidableEq, Repr

/-- The fields of `SharepointService` that the retry logic consults. -/
structure SPState where
  site_url : String
  timeout : Nat
  using_device : Bool
  username : Option String
  password : Option String
deriving DecidableEq, Repr

/-- Python truthiness of an optional string (`None` and `""` are falsy),
as in `if not (self.username and self.password)`. -/
def truthy : Option String → Bool
  | none => false
  | some s => !s.isEmpty

/-- The first two statements of `login`: `self.username = username;
self.password = password`. -/
def loginSetCreds (st : SPState) (u p : Option String) : SPState :=
  { st with username := u, password := p }

/-- The final `raise last_exception` of the wrapper. -/
def finalRaise {α : Type} : Option Failure → Outcome α
  | some f => .raised f
  | none => .raiseNone

/-- Prefix the action trace of a run result. -/
def prependActs {α : Type} (acts : List Action)
    (r : SPState × List Action × Outcome α) :
    SPState × List Action × Outcome α :=
  (r.1, acts ++ r.2.1, r.2.2)

/-- The body of the `for attempt in range(max_retries)` loop of the wrapper
produced by `handle_sharepoint_errors`.  `fuel` is the number of loop
iterations still available, `i` the current value of `attempt`, `last` the
current `last_exception`.  Status checks appear in source order:
429, then 403/401 (device refresh, credential check, re-login), then 503,
then the non-recoverable `else`; non-`ClientRequestException` failures are
retried after a fixed sleep unless their lowercased message contains
`"auth cookies"`, in which case a device refresh is attempted and
`last_exception` is NOT updated. -/
def runFrom {α : Type} (delay : Nat) (env : Nat → AttemptResult α) :
    Nat → SPState → Nat → Option Failure → SPState × List Action × Outcome α
  | 0, st, _, last => (st, [], finalRaise last)
  | fuel + 1, st, i, last =>
    match env i with
    | .ok a => (st, [.attempt i], .ok a)
    | .fail f reloginOk =>
      match f with
      | .clientRequest status =>
        if status = 429 then
          prependActs [.attempt i, .sleep (60 * (i + 1))]
            (runFrom delay env fuel st (i + 1) (some (.clientRequest status)))
        else if status = 403 ∨ status = 401 then
          if st.using_device then
            prependActs [.attempt i, .deviceRefresh]
              (runFrom delay env fuel st (i + 1) (some (.clientRequest status)))
          else if !(truthy st.username && truthy st.password) then
            (st, [.attempt i], .raised (.clientRequest status))
          else
            let st1 := loginSetCreds st st.username st.password
            if reloginOk then
              prependActs [.attempt i, .relogin]
                (runFrom delay env fuel st1 (i + 1) (some (.clientRequest status)))
            else
              (st1, [.attempt i, .relogin], .raised (.clientRequest status))
        else if status = 503 then
          prependActs [.attempt i, .sleep delay]
            (runFrom delay env fuel st (i + 1) (some (.clientRequest status)))
        else
          (st, [.attempt i], .raised (.clientRequest status))
      | .unexpected msg =>
        if substrB "auth cookies" (lowerStr msg) then
          prependActs [.attempt i, .deviceRefresh]
            (runFrom delay env fuel st (i + 1) last)
        else
          prependActs [.attempt i, .sleep delay]
            (runFrom delay env fuel st (i + 1) (some (.unexpected msg)))

/-- One invocation of a function wrapped by
`handle_sharepoint_errors(max_retries, delay_seconds)`:
run the loop from attempt 0 with `last_exception = None`. -/
def handle_sharepoint_errors {α : Type} (max_retries delay_seconds : Nat)
    (st : SPState) (env : Nat → AttemptResult α) :
    SPState × List Action × Outcome α :=
  runFrom delay_seconds env max_retries st 0 none

/-- Decorator defaults: `max_retries = 5`. -/
def default_max_retries : Nat := 5

/-- Decorator defaults: `delay_seconds = 3`. -/
def default_delay_seconds : Nat := 3

/-- Number of invocations of the wrapped function in a trace. -/
def countAttempts (l : List Action) : Nat :=
  (l.filter (fun a => match a with | .attempt _ => true | _ => false)).length

/-- Number of authentication attempts (inside `login`) in a trace. -/
def countAuthAttempts (l : List Action) : Nat :=
  (l.filter (fun a => match a with | .authAttempt _ => true | _ => false)).length

/-- The `for attempt in range(3)` loop of `login`.  `tries i` tells whether
the i-th authentication round-trip succeeds.  On failure of a non-final
attempt the code executes `time.sleep(3)`; after the third failure it falls
out of the loop and returns `False`. -/
def login_run (tries : Nat → Bool) : Nat → Nat → List Action × Bool
  | _, 0 => ([], false)
  | i, fuel + 1 =>
    if tries i then ([.authAttempt i], true)
    else if fuel = 0 then ([.authAttempt i], false)
    else
      let r := login_run tries (i + 1) fuel
      (.authAttempt i :: .sleep 3 :: r.1, r.2)

/-- `SharepointService.login`: stores the given username and password, then
tries the authentication round-trip up to 3 times with a 3-second sleep
between consecutive attempts, returning a boolean success flag. -/
def login (st : SPState) (u p : String) (tries : Nat → Bool) :
    SPState × List Action × Bool :=
  let st1 := loginSetCreds st (some u) (some p)
  let r := login_run tries 0 3
  (st1, r.1, r.2)

/-- Terminal outcome of the integrity loop of `baixar_arquivo`. -/
inductive DownloadOutcome where
  | ok
  | ioError
deriving DecidableEq, Repr

/-- Prefix the action trace of a download run result. -/
def prependDl (acts : List Action)
    (r : List Action × Option Nat × DownloadOutcome) :
    List Action × Option Nat × DownloadOutcome :=
  (acts ++ r.1, r.2.1, r.2.2)

/-- The `for tentativa in range(max_tentativas)` loop of `baixar_arquivo`
plus its epilogue.  `remoteLen` is `file_to_download.length`; `downloads i`
is the number of bytes the i-th streaming attempt writes to the local path
(`open(caminho_download, "wb")` truncates, so the written size replaces the
file wholesale); the `Option Nat` component tracks the local file at
`caminho_download` (`none` = absent, `some n` = present with `n` bytes).
On a size match the function returns; on a mismatch of a non-final attempt it
sleeps 5 seconds and retries; when the loop ends, the partial file is removed
if it exists and an `IOError` is raised. -/
def baixar_run (remoteLen : Nat) (downloads : Nat → Nat) :
    Nat → Nat → Option Nat → List Action × Option Nat × DownloadOutcome
  | _, 0, file =>
    match file with
    | some _ => ([.deleteFile], none, .ioError)
    | none => ([], none, .ioError)
  | i, fuel + 1, _ =>
    let sz := downloads i
    if sz = remoteLen then ([.attempt i], some sz, .ok)
    else if fuel = 0 then ([.attempt i, .deleteFile], none, .ioError)
    else
      prependDl [.attempt i, .sleep 5]
        (baixar_run remoteLen downloads (i + 1) fuel (some sz))

/-- The integrity-checking download loop of `baixar_arquivo`
(default `max_tentativas = 3`), started on a local file state `file0`. -/
def baixar_arquivo (remoteLen : Nat) (max_tentativas : Nat)
    (downloads : Nat → Nat) (file0 : Option Nat) :
    List Action × Option Nat × DownloadOutcome :=
  baixar_run remoteLen downloads 0 max_tentativas file0

/-- Response of one remote call: a value, or a `ClientRequestException`
carrying an HTTP status code. -/
inductive RemoteResult (β : Type) where
  | ok (val : β)
  | err (status : Nat)
deriving DecidableEq, Repr

/-- Body of `obter_pasta`: resolve a folder by server-relative URL.
A `ClientRequestException` with status 404 is converted to `None`; any other
`ClientRequestException` is re-raised.  Folders are identified by a `Nat`
handle delivered by the remote environment `remote`. -/
def obter_pasta (remote : String → RemoteResult Nat) (caminho_pasta : String) :
    Except Failure (Option Nat) :=
  match remote caminho_pasta with
  | .ok fid => .ok (some fid)
  | .err s => if s = 404 then .ok none else .error (.clientRequest s)

/-- The `try` body of `obter_arquivo`: split the path, resolve the dirname
via `obter_pasta`, raise `FileNotFoundError` if the folder is absent or its
file listing is empty, otherwise scan the listing for an exact name match,
returning `None` when no file matches. -/
def obter_arquivo_body (remoteFolder : String → RemoteResult Nat)
    (remoteFiles : Nat → RemoteResult (List String)) (caminho_arquivo : String) :
    Except Failure (Option String) :=
  let nome_arquivo := basename caminho_arquivo
  let dir := dirname caminho_arquivo
  match obter_pasta remoteFolder dir with
  | .error e => .error e
  | .ok none =>
    .error (.unexpected ("FileNotFoundError: A pasta " ++ dir ++ " não foi encontrada."))
  | .ok (some fid) =>
    match remoteFiles fid with
    | .err s => .error (.clientRequest s)
    | .ok files =>
      if files.isEmpty then
        .error (.unexpected ("FileNotFoundError: Nenhum arquivo encontrado na pasta " ++ dir ++ "."))
      else
        match files.find? (fun f => f == nome_arquivo) with
        | some f => .ok (some f)
        | none => .ok none

/-- `obter_arquivo`: the body wrapped in
`except ClientRequestException: if 404 return None else raise`.
Note the `FileNotFoundError` raised for an absent parent folder is NOT a
`ClientRequestException`, so it propagates. -/
def obter_arquivo (remoteFolder : String → RemoteResult Nat)
    (remoteFiles : Nat → RemoteResult (List String)) (caminho_arquivo : String) :
    Except Failure (Option String) :=
  match obter_arquivo_body remoteFolder remoteFiles caminho_arquivo with
  | .error (.clientRequest s) =>
    if s = 404 then .ok none else .error (.clientRequest s)
  | r => r

/-- Whether an `Except` result models a raised exception. -/
def isErr {β : Type} : Except Failure β → Bool
  | .error _ => true
  | .ok _ => false

/-- The non-slash branch of `criar_pasta` over the names of the existing
subfolders: `next((s for s in subpastas if nome_pasta in str(s.name)), None)`.
Returns the name of the folder handed back to the caller and whether a new
folder was actually created (`folders.add` executed). -/
def criar_pasta_flat (existing : List String) (nome_pasta : String) :
    String × Bool :=
  match existing.find? (fun sub => substrB nome_pasta sub) with
  | some pasta => (pasta, false)
  | none => (nome_pasta, true)

/-- `obter_pasta_por_nome` over the listed subfolder names:
`next((p for p in pastas if nome in p.name), None)`. -/
def obter_pasta_por_nome (pastas : List String) (nome : String) : Option String :=
  pastas.find? (fun pasta => substrB nome pasta)

/-- `obter_arquivo_por_nome` over the listed file names:
`next((a for a in arquivos if nome in a.name), None)`. -/
def obter_arquivo_por_nome (arquivos : List String) (nome : String) : Option String :=
  arquivos.find? (fun arquivo => substrB nome arquivo)

/-- The failure classes that the wrapper retries AND records into
`last_exception`: status 429, status 503, and any non-`ClientRequestException`
whose lowercased message does not contain `"auth cookies"`. -/
def isCapturedTransient {α : Type} : AttemptResult α → Bool
  | .fail (.clientRequest s) _ => s == 429 || s == 503
  | .fail (.unexpected m) _ => !substrB "auth cookies" (lowerStr m)
  | .ok _ => false

/-- A non-`ClientRequestException` failure whose lowercased message contains
`"auth cookies"`: retried, but never recorded into `last_exception`. -/
def isCookieFailure {α : Type} : AttemptResult α → Bool
  | .fail (.unexpected m) _ => substrB "auth cookies" (lowerStr m)
  | _ => false

/-- The raised exception of a failing attempt, if any. -/
def failureOf {α : Type} : AttemptResult α → Option Failure
  | .fail f _ => some f
  | .ok _ => none

/-! ### Trace bookkeeping lemmas -/

theorem prependActs_fst {α : Type} (acts : List Action)
    (r : SPState × List Action × Outcome α) : (prependActs acts r).1 = r.1 := rfl

theorem prependActs_trace {α : Type} (acts : List Action)
    (r : SPState × List Action × Outcome α) :
    (prependActs acts r).2.1 = acts ++ r.2.1 := rfl

theorem prependActs_out {α : Type} (acts : List Action)
    (r : SPState × List Action × Outcome α) : (prependActs acts r).2.2 = r.2.2 := rfl

theorem prependDl_trace (acts : List Action)
    (r : List Action × Option Nat × DownloadOutcome) :
    (prependDl acts r).1 = acts ++ r.1 := rfl

theorem prependDl_file (acts : List Action)
    (r : List Action × Option Nat × DownloadOutcome) :
    (prependDl acts r).2.1 = r.2.1 := rfl

theorem prependDl_out (acts : List Action)
    (r : List Action × Option Nat × DownloadOutcome) :
    (prependDl acts r).2.2 = r.2.2 := rfl

theorem countAttempts_nil : countAttempts [] = 0 := rfl

theorem countAttempts_append (l1 l2 : List Action) :
    countAttempts (l1 ++ l2) = countAttempts l1 + countAttempts l2 := by
  simp [countAttempts, List.filter_append]

theorem countAttempts_attempt_cons (i : Nat) (l : List Action) :
    countAttempts (.attempt i :: l) = countAttempts l + 1 := by
  simp [countAttempts, List.filter_cons]

theorem countAttempts_sleep_cons (s : Nat) (l : List Action) :
    countAttempts (.sleep s :: l) = countAttempts l := by
  simp [countAttempts, List.filter_cons]

theorem countAttempts_relogin_cons (l : List Action) :
    countAttempts (.relogin :: l) = countAttempts l := by
  simp [countAttempts, List.filter_cons]

theorem countAttempts_deviceRefresh_cons (l : List Action) :
    countAttempts (.deviceRefresh :: l) = countAttempts l := by
  simp [countAttempts, List.filter_cons]

theorem countAttempts_deleteFile_cons (l : List Action) :
    countAttempts (.deleteFile :: l) = countAttempts l := by
  simp [countAttempts, List.filter_cons]

/-! ### Structural lemmas about the retry loop -/

/-- The wrapped function is invoked at most `fuel` times: re-logins and
device refreshes happen inside an iteration and never extend the budget. -/
theorem runFrom_attempts_le {α : Type} (delay : Nat) (env : Nat → AttemptResult α) :
    ∀ (fuel : Nat) (st : SPState) (i : Nat) (last : Option Failure),
      countAttempts (runFrom delay env fuel st i last).2.1 ≤ fuel := by
  intro fuel
  induction fuel with
  | zero =>
    intro st i last
    simp [runFrom, countAttempts]
  | succ fuel ih =>
    intro st i last
    cases henv : env i with
    | ok a =>
      simp [runFrom, henv, countAttempts, List.filter_cons]
    | fail f reloginOk =>
      cases f with
      | clientRequest status =>
        by_cases h429 : status = 429
        · subst h429
          have hrec := ih st (i + 1) (some (.clientRequest 429))
          simp [runFrom, henv, prependActs_trace, countAttempts_append,
            countAttempts_attempt_cons, countAttempts_sleep_cons, countAttempts_nil] <;>
            omega
        · by_cases hauth : status = 403 ∨ status = 401
          · by_cases hdev : st.using_device
            · have hrec := ih st (i + 1) (some (.clientRequest status))
              simp [runFrom, henv, h429, hauth, hdev, prependActs_trace, countAttempts_append,
                countAttempts_attempt_cons, countAttempts_deviceRefresh_cons,
                countAttempts_nil] <;> omega
            · by_cases hcred : (truthy st.username && truthy st.password) = true
              · cases hrel : reloginOk
                · simp [runFrom, henv, h429, hauth, hdev, hcred, hrel,
                    countAttempts_attempt_cons, countAttempts_relogin_cons,
                    countAttempts_nil] <;> omega
                · have hrec := ih (loginSetCreds st st.username st.password) (i + 1)
                    (some (.clientRequest status))
                  simp [runFrom, henv, h429, hauth, hdev, hcred, hrel, prependActs_trace,
                    countAttempts_append, countAttempts_attempt_cons,
                    countAttempts_relogin_cons, countAttempts_nil] <;> omega
              · simp [runFrom, henv, h429, hauth, hdev, hcred,
                  countAttempts_attempt_cons, countAttempts_nil] <;> omega
          · by_cases h503 : status = 503
            · subst h503
              have hrec := ih st (i + 1) (some (.clientRequest 503))
              simp [runFrom, henv, h429, hauth, prependActs_trace, countAttempts_append,
                countAttempts_attempt_cons, countAttempts_sleep_cons,
                countAttempts_nil] <;> omega
            · simp [runFrom, henv, h429, hauth, h503, countAttempts_attempt_cons,
                countAttempts_nil] <;> omega
      | unexpected msg =>
        by_cases hck : substrB "auth cookies" (lowerStr msg) = true
        · have hrec := ih st (i + 1) last
          simp [runFrom, henv, hck, prependActs_trace, countAttempts_append,
            countAttempts_attempt_cons, countAttempts_deviceRefresh_cons,
            countAttempts_nil] <;> omega
        · have hrec := ih st (i + 1) (some (.unexpected msg))
          simp [runFrom, henv, hck, prependActs_trace, countAttempts_append,
            countAttempts_attempt_cons, countAttempts_sleep_cons,
            countAttempts_nil] <;> omega

/-! ### One-step unfolding equations, one per classification branch -/

theorem runFrom_succ_ok {α : Type} (delay : Nat) (env : Nat → AttemptResult α)
    (fuel : Nat) (st : SPState) (i : Nat) (last : Option Failure) (a : α)
    (henv : env i = .ok a) :
    runFrom delay env (fuel + 1) st i last = (st, [.attempt i], .ok a) := by
  simp [runFrom, henv]

theorem runFrom_succ_429 {α : Type} (delay : Nat) (env : Nat → AttemptResult α)
    (fuel : Nat) (st : SPState) (i : Nat) (last : Option Failure) (reloginOk : Bool)
    (henv : env i = .fail (.clientRequest 429) reloginOk) :
    runFrom delay env (fuel + 1) st i last =
      prependActs [.attempt i, .sleep (60 * (i + 1))]
        (runFrom delay env fuel st (i + 1) (some (.clientRequest 429))) := by
  simp [runFrom, henv]

theorem runFrom_succ_auth_device {α : Type} (delay : Nat) (env : Nat → AttemptResult α)
    (fuel : Nat) (st : SPState) (i : Nat) (last : Option Failure)
    (status : Nat) (reloginOk : Bool)
    (henv : env i = .fail (.clientRequest status) reloginOk)
    (hst : status = 403 ∨ status = 401) (hdev : st.using_device = true) :
    runFrom delay env (fuel + 1) st i last =
      prependActs [.attempt i, .deviceRefresh]
        (runFrom delay env fuel st (i + 1) (some (.clientRequest status))) := by
  rcases hst with rfl | rfl <;> simp [runFrom, henv, hdev]

theorem runFrom_succ_auth_nocreds {α : Type} (delay : Nat) (env : Nat → AttemptResult α)
    (fuel : Nat) (st : SPState) (i : Nat) (last : Option Failure)
    (status : Nat) (reloginOk : Bool)
    (henv : env i = .fail (.clientRequest status) reloginOk)
    (hst : status = 403 ∨ status = 401) (hdev : st.using_device = false)
    (hcred : (truthy st.username && truthy st.password) = false) :
    runFrom delay env (fuel + 1) st i last =
      (st, [.attempt i], .raised (.clientRequest status)) := by
  rcases hst with rfl | rfl <;> simp [runFrom, henv, hdev, hcred]

theorem runFrom_succ_auth_relogin_ok {α : Type} (delay : Nat) (env : Nat → AttemptResult α)
    (fuel : Nat) (st : SPState) (i : Nat) (last : Option Failure) (status : Nat)
    (henv : env i = .fail (.clientRequest status) true)
    (hst : status = 403 ∨ status = 401) (hdev : st.using_device = false)
    (hcred : (truthy st.username && truthy st.password) = true) :
    runFrom delay env (fuel + 1) st i last =
      prependActs [.attempt i, .relogin]
        (runFrom delay env fuel (loginSetCreds st st.username st.password) (i + 1)
          (some (.clientRequest status))) := by
  rcases hst with rfl | rfl <;> simp [runFrom, henv, hdev, hcred]

theorem runFrom_succ_auth_relogin_fail {α : Type} (delay : Nat) (env : Nat → AttemptResult α)
    (fuel : Nat) (st : SPState) (i : Nat) (last : Option Failure) (status : Nat)
    (henv : env i = .fail (.clientRequest status) false)
    (hst : status = 403 ∨ status = 401) (hdev : st.using_device = false)
    (hcred : (truthy st.username && truthy st.password) = true) :
    runFrom delay env (fuel + 1) st i last =
      (loginSetCreds st st.username st.password, [.attempt i, .relogin],
        .raised (.clientRequest status)) := by
  rcases hst with rfl | rfl <;> simp [runFrom, henv, hdev, hcred]

theorem runFrom_succ_503 {α : Type} (delay : Nat) (env : Nat → AttemptResult α)
    (fuel : Nat) (st : SPState) (i : Nat) (last : Option Failure) (reloginOk : Bool)
    (henv : env i = .fail (.clientRequest 503) reloginOk) :
    runFrom delay env (fuel + 1) st i last =
      prependActs [.attempt i, .sleep delay]
        (runFrom delay env fuel st (i + 1) (some (.clientRequest 503))) := by
  simp [runFrom, henv]

theorem runFrom_succ_other {α : Type} (delay : Nat) (env : Nat → AttemptResult α)
    (fuel : Nat) (st : SPState) (i : Nat) (last : Option Failure)
    (status : Nat) (reloginOk : Bool)
    (henv : env i = .fail (.clientRequest status) reloginOk)
    (h429 : ¬status = 429) (hauth : ¬(status = 403 ∨ status = 401))
    (h503 : ¬status = 503) :
    runFrom delay env (fuel + 1) st i last =
      (st, [.attempt i], .raised (.clientRequest status)) := by
  simp [runFrom, henv, h429, hauth, h503]

theorem runFrom_succ_cookie {α : Type} (delay : Nat) (env : Nat → AttemptResult α)
    (fuel : Nat) (st : SPState) (i : Nat) (last : Option Failure)
    (msg : String) (reloginOk : Bool)
    (henv : env i = .fail (.unexpected msg) reloginOk)
    (hsub : substrB "auth cookies" (lowerStr msg) = true) :
    runFrom delay env (fuel + 1) st i last =
      prependActs [.attempt i, .deviceRefresh]
        (runFrom delay env fuel st (i + 1) last) := by
  simp [runFrom, henv, hsub]

theorem runFrom_succ_unexpected {α : Type} (delay : Nat) (env : Nat → AttemptResult α)
    (fuel : Nat) (st : SPState) (i : Nat) (last : Option Failure)
    (msg : String) (reloginOk : Bool)
    (henv : env i = .fail (.unexpected msg) reloginOk)
    (hsub : substrB "auth cookies" (lowerStr msg) = false) :
    runFrom delay env (fuel + 1) st i last =
      prependActs [.attempt i, .sleep delay]
        (runFrom delay env fuel st (i + 1) (some (.unexpected msg))) := by
  simp [runFrom, henv, hsub]

/-- If every available attempt fails with a failure that the wrapper both
retries and records (429, 503, or an unexpected non-auth-cookies exception),
the loop exhausts its budget and the terminal `raise last_exception` raises
the failure of the LAST attempt. -/
theorem runFrom_transient_last {α : Type} (delay : Nat) (env : Nat → AttemptResult α) :
    ∀ (fuel : Nat) (st : SPState) (i : Nat) (last : Option Failure),
      (∀ j, i ≤ j → j < i + (fuel + 1) → isCapturedTransient (env j) = true) →
      (runFrom delay env (fuel + 1) st i last).2.2 =
        finalRaise (failureOf (env (i + fuel))) := by
  intro fuel
  induction fuel with
  | zero =>
    intro st i last h
    have hci := h i (Nat.le_refl i) (by omega)
    cases henv : env i with
    | ok a => rw [henv] at hci; simp [isCapturedTransient] at hci
    | fail f reloginOk =>
      cases f with
      | clientRequest status =>
        rw [henv] at hci
        have hst : status = 429 ∨ status = 503 := by
          simpa [isCapturedTransient] using hci
        rcases hst with rfl | rfl
        · rw [runFrom_succ_429 delay env 0 st i last reloginOk henv, prependActs_out]
          simp [runFrom, henv, finalRaise, failureOf]
        · rw [runFrom_succ_503 delay env 0 st i last reloginOk henv, prependActs_out]
          simp [runFrom, henv, finalRaise, failureOf]
      | unexpected msg =>
        rw [henv] at hci
        have hsub : substrB "auth cookies" (lowerStr msg) = false := by
          simpa [isCapturedTransient] using hci
        rw [runFrom_succ_unexpected delay env 0 st i last msg reloginOk henv hsub,
          prependActs_out]
        simp [runFrom, henv, finalRaise, failureOf]
  | succ fuel ih =>
    intro st i last h
    have hci := h i (Nat.le_refl i) (by omega)
    have hrest : ∀ j, i + 1 ≤ j → j < (i + 1) + (fuel + 1) →
        isCapturedTransient (env j) = true := by
      intro j hj1 hj2
      exact h j (by omega) (by omega)
    have hidx : i + 1 + fuel = i + (fuel + 1) := by omega
    cases henv : env i with
    | ok a => rw [henv] at hci; simp [isCapturedTransient] at hci
    | fail f reloginOk =>
      cases f with
      | clientRequest status =>
        rw [henv] at hci
        have hst : status = 429 ∨ status = 503 := by
          simpa [isCapturedTransient] using hci
        rcases hst with rfl | rfl
        · have hr := ih st (i + 1) (some (.clientRequest 429)) hrest
          rw [hidx] at hr
          rw [runFrom_succ_429 delay env (fuel + 1) st i last reloginOk henv,
            prependActs_out, hr]
        · have hr := ih st (i + 1) (some (.clientRequest 503)) hrest
          rw [hidx] at hr
          rw [runFrom_succ_503 delay env (fuel + 1) st i last reloginOk henv,
            prependActs_out, hr]
      | unexpected msg =>
        rw [henv] at hci
        have hsub : substrB "auth cookies" (lowerStr msg) = false := by
          simpa [isCapturedTransient] using hci
        have hr := ih st (i + 1) (some (.unexpected msg)) hrest
        rw [hidx] at hr
        rw [runFrom_succ_unexpected delay env (fuel + 1) st i last msg reloginOk henv hsub,
          prependActs_out, hr]

/-- If every available attempt fails with a non-`ClientRequestException`
whose lowercased message contains `"auth cookies"`, no failure is ever
recorded: the loop exhausts its budget with `last_exception` unchanged. -/
theorem runFrom_cookie_keeps_last {α : Type} (delay : Nat) (env : Nat → AttemptResult α) :
    ∀ (fuel : Nat) (st : SPState) (i : Nat) (last : Option Failure),
      (∀ j, i ≤ j → j < i + fuel → isCookieFailure (env j) = true) →
      (runFrom delay env fuel st i last).2.2 = finalRaise last := by
  intro fuel
  induction fuel with
  | zero => intro st i last _; rfl
  | succ fuel ih =>
    intro st i last h
    have hci := h i (Nat.le_refl i) (by omega)
    cases henv : env i with
    | ok a => rw [henv] at hci; simp [isCookieFailure] at hci
    | fail f reloginOk =>
      cases f with
      | clientRequest status => rw [henv] at hci; simp [isCookieFailure] at hci
      | unexpected msg =>
        rw [henv] at hci
        have hsub : substrB "auth cookies" (lowerStr msg) = true := by
          simpa [isCookieFailure] using hci
        have hrest : ∀ j, i + 1 ≤ j → j < (i + 1) + fuel →
            isCookieFailure (env j) = true := by
          intro j hj1 hj2
          exact h j (by omega) (by omega)
        rw [runFrom_succ_cookie delay env fuel st i last msg reloginOk henv hsub,
          prependActs_out, ih st (i + 1) last hrest]

/-- If every available download attempt writes a byte count different from
the remote length, the loop exhausts its budget, the partial file is removed,
and an `IOError` is raised; each attempt invoked the streaming request. -/
theorem baixar_run_succ (remoteLen : Nat) (downloads : Nat → Nat)
    (i fuel : Nat) (file : Option Nat) :
    baixar_run remoteLen downloads i (fuel + 1) file =
      if downloads i = remoteLen then ([.attempt i], some (downloads i), .ok)
      else if fuel = 0 then ([.attempt i, .deleteFile], none, .ioError)
      else
        prependDl [.attempt i, .sleep 5]
          (baixar_run remoteLen downloads (i + 1) fuel (some (downloads i))) := by
  simp [baixar_run]

theorem baixar_run_mismatch_all (remoteLen : Nat) (downloads : Nat → Nat) :
    ∀ (fuel : Nat) (i : Nat) (file : Option Nat),
      (∀ j, i ≤ j → j < i + (fuel + 1) → downloads j ≠ remoteLen) →
      (baixar_run remoteLen downloads i (fuel + 1) file).2.1 = none ∧
      (baixar_run remoteLen downloads i (fuel + 1) file).2.2 = .ioError ∧
      countAttempts (baixar_run remoteLen downloads i (fuel + 1) file).1 = fuel + 1 := by
  intro fuel
  induction fuel with
  | zero =>
    intro i file h
    have hmm := h i (Nat.le_refl i) (by omega)
    rw [baixar_run_succ, if_neg hmm, if_pos rfl]
    simp [countAttempts_attempt_cons, countAttempts_deleteFile_cons, countAttempts_nil]
  | succ fuel ih =>
    intro i file h
    have hmm := h i (Nat.le_refl i) (by omega)
    have hrest : ∀ j, i + 1 ≤ j → j < (i + 1) + (fuel + 1) → downloads j ≠ remoteLen := by
      intro j hj1 hj2
      exact h j (by omega) (by omega)
    have hr := ih (i + 1) (some (downloads i)) hrest
    rw [baixar_run_succ, if_neg hmm, if_neg (Nat.succ_ne_zero fuel)]
    simp only [prependDl_trace, prependDl_file, prependDl_out, countAttempts_append,
      countAttempts_attempt_cons, countAttempts_sleep_cons, countAttempts_nil]
    refine ⟨hr.1, hr.2.1, ?_⟩
    rw [hr.2.2]
    omega

/-- The retry loop never replaces the service state: the only mutation on this
path is the re-login rewriting `username`/`password` with their current
values. -/
theorem runFrom_state_eq {α : Type} (delay : Nat) (env : Nat → AttemptResult α) :
    ∀ (fuel : Nat) (st : SPState) (i : Nat) (last : Option Failure),
      (runFrom delay env fuel st i last).1 = st := by
  intro fuel
  induction fuel with
  | zero => intro st i last; rfl
  | succ fuel ih =>
    intro st i last
    have hset : loginSetCreds st st.username st.password = st := rfl
    cases henv : env i with
    | ok a => simp [runFrom, henv]
    | fail f reloginOk =>
      cases f with
      | clientRequest status =>
        simp only [runFrom, henv]
        split
        · rw [prependActs_fst, ih]
        · split
          · split
            · rw [prependActs_fst, ih]
            · split
              · rfl
              · split
                · rw [prependActs_fst, ih, hset]
                · rw [hset]
          · split
            · rw [prependActs_fst, ih]
            · rfl
      | unexpected msg =>
        simp only [runFrom, henv]
        split
        · rw [prependActs_fst, ih]
        · rw [prependActs_fst, ih]

/-! ### Claims -/

/-- Claim C1 (amended).  When the service is NOT in device-code mode, a 401 or
403 failure behaves as the claim states: with persisted username+password a
re-login is attempted and, on success, the operation is retried immediately
(no sleep) within the same remaining retry budget; on re-login failure the
original authorization error is raised; with no credentials the original
error is raised immediately, with no sleep and no further attempt.  In
device-code mode, however, a device-token refresh is performed and the
operation is retried regardless of stored credentials. -/
theorem claim_C1 {α : Type} (delay fuel i : Nat) (st : SPState)
    (env : Nat → AttemptResult α) (last : Option Failure) (status : Nat)
    (reloginOk : Bool)
    (henv : env i = .fail (.clientRequest status) reloginOk)
    (hst : status = 403 ∨ status = 401) :
    (st.using_device = false → (truthy st.username && truthy st.password) = false →
      runFrom delay env (fuel + 1) st i last =
        (st, [.attempt i], .raised (.clientRequest status))) ∧
    (st.using_device = false → (truthy st.username && truthy st.password) = true →
      reloginOk = true →
      runFrom delay env (fuel + 1) st i last =
        prependActs [.attempt i, .relogin]
          (runFrom delay env fuel (loginSetCreds st st.username st.password) (i + 1)
            (some (.clientRequest status)))) ∧
    (st.using_device = false → (truthy st.username && truthy st.password) = true →
      reloginOk = false →
      runFrom delay env (fuel + 1) st i last =
        (loginSetCreds st st.username st.password, [.attempt i, .relogin],
          .raised (.clientRequest status))) ∧
    (st.using_device = true →
      runFrom delay env (fuel + 1) st i last =
        prependActs [.attempt i, .deviceRefresh]
          (runFrom delay env fuel st (i + 1) (some (.clientRequest status)))) := by
  refine ⟨?_, ?_, ?_, ?_⟩
  · intro hdev hcred
    exact runFrom_succ_auth_nocreds delay env fuel st i last status reloginOk henv hst hdev hcred
  · intro hdev hcred hrel
    subst hrel
    exact runFrom_succ_auth_relogin_ok delay env fuel st i last status henv hst hdev hcred
  · intro hdev hcred hrel
    subst hrel
    exact runFrom_succ_auth_relogin_fail delay env fuel st i last status henv hst hdev hcred
  · intro hdev
    exact runFrom_succ_auth_device delay env fuel st i last status reloginOk henv hst hdev

/-- Witness for C1: with no stored credentials (and not in device mode) a 403
failure is raised at once, after a single attempt and with no sleep. -/
theorem claim_C1_witness :
    runFrom 3
      (fun _ => (AttemptResult.fail (Failure.clientRequest 403) false : AttemptResult Unit))
      (4 + 1) ⟨"s", 90, false, none, none⟩ 0 none =
      (⟨"s", 90, false, none, none⟩, [Action.attempt 0],
        Outcome.raised (Failure.clientRequest 403)) :=
  (claim_C1 3 4 0 ⟨"s", 90, false, none, none⟩
    (fun _ => (AttemptResult.fail (Failure.clientRequest 403) false : AttemptResult Unit))
    none 403 false rfl (Or.inl rfl)).1 rfl rfl

/-- Counterexample to C1 as stated: in device-code mode with NO persisted
username+password, a 401 failure is not raised immediately — the wrapper
refreshes the device token and performs a second attempt (trace shows two
attempts), only raising at budget exhaustion. -/
theorem claim_C1_cex :
    truthy (none : Option String) = false ∧
    (handle_sharepoint_errors 2 3 ⟨"s", 90, true, none, none⟩
        (fun _ => (AttemptResult.fail (Failure.clientRequest 401) false :
          AttemptResult Unit))).2.1 =
      [Action.attempt 0, Action.deviceRefresh, Action.attempt 1, Action.deviceRefresh] ∧
    (handle_sharepoint_errors 2 3 ⟨"s", 90, true, none, none⟩
        (fun _ => (AttemptResult.fail (Failure.clientRequest 401) false :
          AttemptResult Unit))).2.2 =
      Outcome.raised (Failure.clientRequest 401) := by
  decide

/-- Claim C2 (amended).  A 503 failure makes the executor sleep the fixed
`delay_seconds` and continue the loop; a 504 failure falls into the
non-recoverable `else` branch and is raised immediately, with no sleep and no
retry. -/
theorem claim_C2 {α : Type} (delay fuel i : Nat) (st : SPState)
    (env : Nat → AttemptResult α) (last : Option Failure) (reloginOk : Bool) :
    (env i = .fail (.clientRequest 503) reloginOk →
      runFrom delay env (fuel + 1) st i last =
        prependActs [.attempt i, .sleep delay]
          (runFrom delay env fuel st (i + 1) (some (.clientRequest 503)))) ∧
    (env i = .fail (.clientRequest 504) reloginOk →
      runFrom delay env (fuel + 1) st i last =
        (st, [.attempt i], .raised (.clientRequest 504))) := by
  refine ⟨?_, ?_⟩
  · intro henv
    exact runFrom_succ_503 delay env fuel st i last reloginOk henv
  · intro henv
    exact runFrom_succ_other delay env fuel st i last 504 reloginOk henv
      (by decide) (by decide) (by decide)

/-- Witness for C2: a run whose two attempts both fail with 503 sleeps the
fixed delay after each failure and raises the last 503 at exhaustion. -/
theorem claim_C2_witness :
    runFrom 3
      (fun _ => (AttemptResult.fail (Failure.clientRequest 503) false : AttemptResult Unit))
      (1 + 1) ⟨"s", 90, false, none, none⟩ 0 none =
      (⟨"s", 90, false, none, none⟩,
        [Action.attempt 0, Action.sleep 3, Action.attempt 1, Action.sleep 3],
        Outcome.raised (Failure.clientRequest 503)) := by
  have h := (claim_C2 3 1 0 ⟨"s", 90, false, none, none⟩
    (fun _ => (AttemptResult.fail (Failure.clientRequest 503) false : AttemptResult Unit))
    none false).1 rfl
  exact h.trans (by decide)

/-- Counterexample to C2 as stated: a 504 failure does NOT sleep and retry —
the very first 504 is raised immediately (one attempt, no sleep action),
because only status 503 is matched by the service-unavailable branch. -/
theorem claim_C2_cex :
    handle_sharepoint_errors 5 3 ⟨"s", 90, false, none, none⟩
      (fun _ => (AttemptResult.fail (Failure.clientRequest 504) false :
        AttemptResult Unit)) =
      (⟨"s", 90, false, none, none⟩, [Action.attempt 0],
        Outcome.raised (Failure.clientRequest 504)) := by
  decide

/-- Claim C3 (amended).  A 429 failure at attempt index `i` makes the executor
sleep `60 * (i + 1)` seconds — strictly increasing in `i` — and continue the
loop; a 429 never causes an in-loop abort.  (When consecutive 429s exhaust
the whole budget, the wrapper does raise the last 429: see the
counterexample.) -/
theorem claim_C3 {α : Type} (delay fuel i : Nat) (st : SPState)
    (env : Nat → AttemptResult α) (last : Option Failure) (reloginOk : Bool)
    (henv : env i = .fail (.clientRequest 429) reloginOk) :
    runFrom delay env (fuel + 1) st i last =
      prependActs [.attempt i, .sleep (60 * (i + 1))]
        (runFrom delay env fuel st (i + 1) (some (.clientRequest 429))) ∧
    60 * (i + 1) < 60 * (i + 1 + 1) :=
  ⟨runFrom_succ_429 delay env fuel st i last reloginOk henv, by omega⟩

/-- Witness for C3: a 429 on attempt 0 sleeps 60 seconds; with budget 1 the
loop then exhausts and the 429 is raised. -/
theorem claim_C3_witness :
    runFrom 3
      (fun _ => (AttemptResult.fail (Failure.clientRequest 429) false : AttemptResult Unit))
      (0 + 1) ⟨"s", 90, false, none, none⟩ 0 none =
      (⟨"s", 90, false, none, none⟩, [Action.attempt 0, Action.sleep 60],
        Outcome.raised (Failure.clientRequest 429)) ∧
    60 * (0 + 1) < 60 * (0 + 1 + 1) := by
  have h := claim_C3 3 0 0 ⟨"s", 90, false, none, none⟩
    (fun _ => (AttemptResult.fail (Failure.clientRequest 429) false : AttemptResult Unit))
    none false rfl
  exact ⟨h.1.trans (by decide), h.2⟩

/-- Counterexample to C3 as stated ("never aborts solely due to
rate-limiting"): when every attempt fails with 429, the budget runs out and
the executor raises the 429 — an abort caused solely by rate-limiting.  Note
also that the final 429 still sleeps 120 seconds although no retry follows. -/
theorem claim_C3_cex :
    handle_sharepoint_errors 2 3 ⟨"s", 90, false, none, none⟩
      (fun _ => (AttemptResult.fail (Failure.clientRequest 429) false :
        AttemptResult Unit)) =
      (⟨"s", 90, false, none, none⟩,
        [Action.attempt 0, Action.sleep 60, Action.attempt 1, Action.sleep 120],
        Outcome.raised (Failure.clientRequest 429)) := by
  decide

/-- Claim C4.  If every one of the `max_retries` attempts fails with a
failure class that the wrapper retries and records (429, 503, or an
unexpected non-auth-cookies exception), the executor raises the failure of
the LAST attempt, not the first. -/
theorem claim_C4 {α : Type} (max_retries delay : Nat) (st : SPState)
    (env : Nat → AttemptResult α) (hpos : 0 < max_retries)
    (htr : ∀ j, j < max_retries → isCapturedTransient (env j) = true) :
    (handle_sharepoint_errors max_retries delay st env).2.2 =
      finalRaise (failureOf (env (max_retries - 1))) := by
  obtain ⟨fuel, rfl⟩ : ∃ fuel, max_retries = fuel + 1 := ⟨max_retries - 1, by omega⟩
  have h := runFrom_transient_last delay env fuel st 0 none
    (by intro j hj1 hj2; exact htr j (by omega))
  simpa [handle_sharepoint_errors] using h

/-- Witness for C4: attempt 0 fails with 429 and attempt 1 with 503; the
executor raises the 503 (the last failure), not the first 429. -/
theorem claim_C4_witness :
    (handle_sharepoint_errors 2 3 ⟨"s", 90, false, none, none⟩
        (fun j => if j = 0 then
            (AttemptResult.fail (Failure.clientRequest 429) false : AttemptResult Unit)
          else .fail (.clientRequest 503) false)).2.2 =
      Outcome.raised (Failure.clientRequest 503) ∧
    Failure.clientRequest 503 ≠ Failure.clientRequest 429 := by
  have h := claim_C4 2 3 ⟨"s", 90, false, none, none⟩
    (fun j => if j = 0 then
        (AttemptResult.fail (Failure.clientRequest 429) false : AttemptResult Unit)
      else .fail (.clientRequest 503) false) (by decide) (by decide)
  exact ⟨h.trans (by decide), by decide⟩

/-- Claim C9.  If every attempt fails with a non-`ClientRequestException`
whose message contains "auth cookies", the `except Exception` branch retries
without ever assigning `last_exception`, so the terminal statement executes
`raise last_exception` while it is still `None` (a `TypeError` in Python,
modelled as `Outcome.raiseNone`) instead of raising the last observed
failure. -/
theorem claim_C9 {α : Type} (max_retries delay : Nat) (st : SPState)
    (env : Nat → AttemptResult α)
    (hck : ∀ j, j < max_retries → isCookieFailure (env j) = true) :
    (handle_sharepoint_errors max_retries delay st env).2.2 =
      (Outcome.raiseNone : Outcome α) := by
  have h := runFrom_cookie_keeps_last delay env max_retries st 0 none
    (by intro j hj1 hj2; exact hck j (by omega))
  simpa [handle_sharepoint_errors, finalRaise] using h

/-- Witness for C9: five attempts all failing with "Cannot get auth cookies"
end in `raise None`, not in the last observed failure. -/
theorem claim_C9_witness :
    (handle_sharepoint_errors 5 3 ⟨"s", 90, true, none, none⟩
        (fun _ => (AttemptResult.fail
          (Failure.unexpected "Cannot get auth cookies from ADFS") false :
          AttemptResult Unit))).2.2 = (Outcome.raiseNone : Outcome Unit) :=
  claim_C9 5 3 ⟨"s", 90, true, none, none⟩
    (fun _ => (AttemptResult.fail
      (Failure.unexpected "Cannot get auth cookies from ADFS") false :
      AttemptResult Unit))
    (by decide)

/-- Claim C5 (amended).  When the local byte count differs from the remote
length, the download is retried (after a 5-second sleep) up to the separate
`max_tentativas` budget, each attempt rewriting the local file in place; only
after ALL attempts mismatch is the partial file deleted and an `IOError`
raised, leaving no file at the target path.  (Intermediate mismatches do not
delete the file: see the counterexample.) -/
theorem claim_C5 (remoteLen max_tentativas : Nat) (downloads : Nat → Nat)
    (file0 : Option Nat) (hpos : 0 < max_tentativas)
    (hmm : ∀ j, j < max_tentativas → downloads j ≠ remoteLen) :
    (baixar_arquivo remoteLen max_tentativas downloads file0).2.1 = none ∧
    (baixar_arquivo remoteLen max_tentativas downloads file0).2.2 = .ioError ∧
    countAttempts (baixar_arquivo remoteLen max_tentativas downloads file0).1 =
      max_tentativas := by
  obtain ⟨fuel, rfl⟩ : ∃ fuel, max_tentativas = fuel + 1 := ⟨max_tentativas - 1, by omega⟩
  exact baixar_run_mismatch_all remoteLen downloads fuel 0 file0
    (by intro j hj1 hj2; exact hmm j (by omega))

/-- Witness for C5: a remote length of 10 and three attempts that each write
4 bytes leave no file at the target path and raise `IOError` after all three
attempts ran. -/
theorem claim_C5_witness :
    (baixar_arquivo 10 3 (fun _ => 4) none).2.1 = none ∧
    (baixar_arquivo 10 3 (fun _ => 4) none).2.2 = DownloadOutcome.ioError ∧
    countAttempts (baixar_arquivo 10 3 (fun _ => 4) none).1 = 3 :=
  claim_C5 10 3 (fun _ => 4) none (by decide) (by decide)

/-- Counterexample to C5 as stated ("whenever the local byte count differs,
the partial local file is deleted and the whole download is retried"):
attempt 0 writes 5 of 10 bytes (a mismatch), yet no `os.remove` happens —
the run retries with the 5-byte partial file still on disk (it is merely
overwritten by attempt 1) and finishes without any `deleteFile` action. -/
theorem claim_C5_cex :
    baixar_arquivo 10 3 (fun j => if j = 0 then 5 else 10) none =
      ([Action.attempt 0, Action.sleep 5, Action.attempt 1], some 10,
        DownloadOutcome.ok) ∧
    (5 : Nat) ≠ 10 ∧
    Action.deleteFile ∉ [Action.attempt 0, Action.sleep 5, Action.attempt 1] := by
  decide

/-- Claim C6 (amended).  `obter_pasta` maps a 404 response to `None` (and,
being a pure function of the remote state, does so on every repeated call);
`obter_arquivo` returns `None` when the parent folder resolves but the file
is missing from a non-empty listing, and also when the file listing itself
raises 404; BUT when the parent-folder resolution yields the 404, the code
raises `FileNotFoundError` instead of returning an absence marker. -/
theorem claim_C6 :
    (∀ (remote : String → RemoteResult Nat) (caminho : String),
      remote caminho = .err 404 →
        obter_pasta remote caminho = .ok none ∧
        obter_pasta remote caminho = .ok none) ∧
    (∀ (remoteFolder : String → RemoteResult Nat)
        (remoteFiles : Nat → RemoteResult (List String))
        (caminho : String) (fid : Nat) (files : List String),
      remoteFolder (dirname caminho) = .ok fid →
      remoteFiles fid = .ok files → files ≠ [] →
      files.find? (fun f => f == basename caminho) = none →
        obter_arquivo remoteFolder remoteFiles caminho = .ok none) ∧
    (∀ (remoteFolder : String → RemoteResult Nat)
        (remoteFiles : Nat → RemoteResult (List String))
        (caminho : String) (fid : Nat),
      remoteFolder (dirname caminho) = .ok fid →
      remoteFiles fid = .err 404 →
        obter_arquivo remoteFolder remoteFiles caminho = .ok none) ∧
    (∀ (remoteFolder : String → RemoteResult Nat)
        (remoteFiles : Nat → RemoteResult (List String)) (caminho : String),
      remoteFolder (dirname caminho) = .err 404 →
        isErr (obter_arquivo remoteFolder remoteFiles caminho) = true) := by
  refine ⟨?_, ?_, ?_, ?_⟩
  · intro remote caminho h
    exact ⟨by simp [obter_pasta, h], by simp [obter_pasta, h]⟩
  · intro remoteFolder remoteFiles caminho fid files h1 h2 h3 h4
    have hne : files.isEmpty = false := by
      cases files with
      | nil => exact absurd rfl h3
      | cons a l => rfl
    simp [obter_arquivo, obter_arquivo_body, obter_pasta, h1, h2, hne, h4]
  · intro remoteFolder remoteFiles caminho fid h1 h2
    simp [obter_arquivo, obter_arquivo_body, obter_pasta, h1, h2]
  · intro remoteFolder remoteFiles caminho h
    simp [obter_arquivo, obter_arquivo_body, obter_pasta, h, isErr]

/-- Witness for C6: concrete instances of all four behaviours, including the
repeated resolution of a missing folder returning `None` both times. -/
theorem claim_C6_witness :
    obter_pasta (fun _ => RemoteResult.err 404) "x/y" = .ok none ∧
    obter_arquivo (fun _ => RemoteResult.ok 7)
      (fun _ => RemoteResult.ok ["b.txt"]) "p/a.txt" = .ok none ∧
    obter_arquivo (fun _ => RemoteResult.ok 7)
      (fun _ => (RemoteResult.err 404 : RemoteResult (List String))) "p/a.txt" = .ok none ∧
    isErr (obter_arquivo (fun _ => (RemoteResult.err 404 : RemoteResult Nat))
      (fun _ => RemoteResult.ok ["a.txt"]) "p/a.txt") = true := by
  have h := claim_C6
  exact ⟨(h.1 (fun _ => RemoteResult.err 404) "x/y" rfl).1,
    h.2.1 (fun _ => RemoteResult.ok 7) (fun _ => RemoteResult.ok ["b.txt"])
      "p/a.txt" 7 ["b.txt"] rfl rfl (by decide) (by decide),
    h.2.2.1 (fun _ => RemoteResult.ok 7)
      (fun _ => (RemoteResult.err 404 : RemoteResult (List String))) "p/a.txt" 7 rfl rfl,
    h.2.2.2 (fun _ => (RemoteResult.err 404 : RemoteResult Nat))
      (fun _ => RemoteResult.ok ["a.txt"]) "p/a.txt" rfl⟩

/-- Counterexample to C6 as stated: resolving the file "pasta/a.txt" when the
parent folder "pasta" yields a 404-class response makes `obter_arquivo`
raise (a `FileNotFoundError`), not return the absence marker. -/
theorem claim_C6_cex :
    isErr (obter_arquivo (fun _ => (RemoteResult.err 404 : RemoteResult Nat))
      (fun _ => RemoteResult.ok ["a.txt", "b.txt"]) "pasta/a.txt") = true ∧
    obter_pasta (fun _ => (RemoteResult.err 404 : RemoteResult Nat)) "pasta" = .ok none :=
  ⟨by decide, rfl⟩

/-- Claim C7.  `login` performs at most 3 authentication attempts with a
fixed 3-second sleep between consecutive attempts, returns `true` exactly
when one of the first three attempts succeeds and `false` after 3 failures;
and the wrapped-operation retry that follows a successful re-login stays
within the same outer budget: the wrapped function never runs more than
`max_retries` times, re-logins included. -/
theorem claim_C7 (st : SPState) (u p : String) (tries : Nat → Bool) :
    countAuthAttempts (login st u p tries).2.1 ≤ 3 ∧
    (login st u p tries).2.2 = (tries 0 || tries 1 || tries 2) ∧
    (tries 0 = false → tries 1 = false → tries 2 = false →
      (login st u p tries).2.1 =
        [Action.authAttempt 0, Action.sleep 3, Action.authAttempt 1,
          Action.sleep 3, Action.authAttempt 2]) ∧
    (∀ (α : Type) (max_retries delay : Nat) (env : Nat → AttemptResult α),
      countAttempts (handle_sharepoint_errors max_retries delay st env).2.1 ≤
        max_retries) := by
  refine ⟨?_, ?_, ?_, ?_⟩
  · cases h0 : tries 0 <;> cases h1 : tries 1 <;> cases h2 : tries 2 <;>
      simp [login, login_run, h0, h1, h2, countAuthAttempts, List.filter_cons]
  · cases h0 : tries 0 <;> cases h1 : tries 1 <;> cases h2 : tries 2 <;>
      simp [login, login_run, h0, h1, h2]
  · intro h0 h1 h2
    simp [login, login_run, h0, h1, h2]
  · intro α max_retries delay env
    exact runFrom_attempts_le delay env max_retries st 0 none

/-- Witness for C7: with every authentication round-trip failing, `login`
returns `false` after exactly the trace attempt/sleep/attempt/sleep/attempt. -/
theorem claim_C7_witness :
    (login ⟨"s", 90, false, none, none⟩ "user" "senha" (fun _ => false)).2.1 =
      [Action.authAttempt 0, Action.sleep 3, Action.authAttempt 1,
        Action.sleep 3, Action.authAttempt 2] ∧
    (login ⟨"s", 90, false, none, none⟩ "user" "senha" (fun _ => false)).2.2 = false := by
  have h := claim_C7 ⟨"s", 90, false, none, none⟩ "user" "senha" (fun _ => false)
  exact ⟨h.2.2.1 rfl rfl rfl, by simpa using h.2.1⟩

/-- Claim C8.  Wrapped operations never change the stored credentials: after
any run of the retry loop the service's `username` and `password` are exactly
what they were before (the internal re-login calls `login(self.username,
self.password)`, rewriting them with their current values), and only a
`login` call itself assigns them. -/
theorem claim_C8 {α : Type} (max_retries delay : Nat) (st : SPState)
    (env : Nat → AttemptResult α) (u p : String) (tries : Nat → Bool) :
    (handle_sharepoint_errors max_retries delay st env).1.username = st.username ∧
    (handle_sharepoint_errors max_retries delay st env).1.password = st.password ∧
    (login st u p tries).1.username = some u ∧
    (login st u p tries).1.password = some p := by
  have h := runFrom_state_eq delay env max_retries st 0 none
  exact ⟨by simp [handle_sharepoint_errors, h], by simp [handle_sharepoint_errors, h],
    rfl, rfl⟩

/-- Claim C10.  `criar_pasta` decides folder existence by substring
containment (`nome_pasta in str(subpasta.name)`): with an existing subfolder
"AB" and requested name "A", it returns the existing "AB" folder and creates
nothing; `obter_pasta_por_nome` and `obter_arquivo_por_nome` use the same
substring matching and also return "AB" when asked for "A". -/
theorem claim_C10 :
    substrB "A" "AB" = true ∧
    criar_pasta_flat ["AB"] "A" = ("AB", false) ∧
    ("AB" : String) ≠ "A" ∧
    obter_pasta_por_nome ["AB"] "A" = some "AB" ∧
    obter_arquivo_por_nome ["AB"] "A" = some "AB" := by
  decide

end Office365Service
